import Mathlib

/-!
Shallow embedding of the step-registration and dynamic-endpoint-synthesis
engine of the flowforge repository (`src/promptmage/api.py`,
`PromptMageAPI.get_app` / `PromptMageAPI.create_endpoint_function`),
together with the Prompt Store interface and the step-registration wrapper
that the repository's API layer calls into.

Values flowing through the API (argument values, defaults, function
results) are modelled by a small closed `Value` type; machine-level
concerns (serialization, HTTP transport encoding) are outside the claims.
-/

namespace Flowforge

/-- A prompt template, per the data model: id, template variable names,
system text, user text. -/
structure Prompt where
  id : String
  template_vars : List String
  system : String
  user : String
deriving Repr, DecidableEq

/-- Dynamic values passed through the API layer: strings, integers, the
Python `None`, and a resolved `Prompt` object (injected by the wrapper). -/
inductive Value where
  | vStr (s : String)
  | vInt (n : Int)
  | vNone
  | vPrompt (p : Prompt)
deriving Repr, DecidableEq

/-- Errors surfaced by an invocation: the Prompt Store's
`PromptNotFoundError`, or an arbitrary exception raised by the wrapped
user function (carried as a message). -/
inductive Err where
  | promptNotFound (promptId : String)
  | userError (msg : String)
  | valueError (msg : String)
deriving Repr, DecidableEq

/-- A declared parameter of a registered function, as
`inspect.signature(func).parameters` exposes it in `get_app`:
its name and its default (`none` models `inspect.Parameter.empty`). -/
structure Param where
  name : String
  default : Option Value
deriving Repr, DecidableEq

/-- The `kind` field of the rewritten `inspect.Parameter` built in
`get_app`: `POSITIONAL_OR_KEYWORD` for path parameters, `KEYWORD_ONLY`
for query parameters. -/
inductive ParamKind where
  | positionalOrKeyword
  | keywordOnly
deriving Repr, DecidableEq

/-- The transport-layer default attached to a rewritten parameter:
`Path(..., description=...)` marks a required path parameter;
`Query(default, description=...)` carries the declared default. -/
inductive TransportDefault where
  | pathRequired (description : String)
  | queryDefault (v : Value) (description : String)
deriving Repr, DecidableEq

/-- One parameter of the rewritten signature handed to the web layer. -/
structure RouteParam where
  name : String
  kind : ParamKind
  default : TransportDefault
deriving Repr, DecidableEq

/-- Whether a rewritten parameter was classified as a path parameter. -/
def isPathParam (rp : RouteParam) : Bool :=
  match rp.kind with
  | ParamKind.positionalOrKeyword => true
  | ParamKind.keywordOnly => false

/-- Whether a rewritten parameter was classified as a query parameter. -/
def isQueryParam (rp : RouteParam) : Bool :=
  match rp.kind with
  | ParamKind.positionalOrKeyword => false
  | ParamKind.keywordOnly => true

/-- How the original user function was invoked: the positional argument
list and the keyword-argument mapping, in the order the call supplied
them. -/
structure Call where
  posArgs : List Value
  kwArgs : List (String × Value)
deriving Repr

/-- The Prompt Store contents: stored prompts keyed by prompt id. -/
abbrev PromptStore := List (String × Prompt)

/-- Modelled from the spec: the Prompt Store implementation is not under
`src/`; per the external-interface contract, `get_prompt(id)` returns the
stored Prompt and "fails with `PromptNotFoundError` if absent". -/
def get_prompt (store : PromptStore) (pid : String) : Except Err Prompt :=
  match store.find? (fun kv => kv.1 = pid) with
  | some kv => Except.ok kv.2
  | none => Except.error (Err.promptNotFound pid)

/-- A registered step's callable as stored in `mage.steps`: the
registration wrapper keeps the original function's declared signature
(which `get_app` introspects), the bound prompt id, and the original
function's behaviour, abstracted as a map from the incoming call (plus
the resolved prompt injected into the keyword arguments) to a result or a
raised exception. -/
structure StepFunc where
  prompt_id : String
  sigParams : List Param
  body : Call → Except Err Value

/-- The semantic type of a Python callable in a world with a Prompt
Store: it receives positional and keyword arguments and produces a result
or raises. -/
def PyCallable : Type :=
  PromptStore → List Value → List (String × Value) → Except Err Value

/-- Modelled from the spec: the `PromptMage.step` registration wrapper is
not under `src/`; per the spec the invocation "(a) resolves
`step.prompt_id` via the Prompt Store, (b) calls
`step.function(**received_args, prompt=resolved_prompt)", (c) returns the
function's result as the response body", with prompt resolution lazy
(per invocation, not at registration). -/
def wrapped_call (f : StepFunc) : PyCallable :=
  fun store args kwargs =>
    match get_prompt store f.prompt_id with
    | Except.error e => Except.error e
    | Except.ok p => f.body ⟨args, kwargs ++ [("prompt", Value.vPrompt p)]⟩

/-- Embedding of `PromptMageAPI.create_endpoint_function`: the endpoint closure
directly passes the arguments it receives on to the wrapped function
(`return func(*args, **kwargs)`), with no exception handling around the
call. -/
def create_endpoint_function (func : PyCallable) : PyCallable :=
  fun store args kwargs => func store args kwargs

/-- The inner loop of `get_app` over `signature.parameters`: skip any
parameter named `prompt`; a parameter with no default becomes a
`POSITIONAL_OR_KEYWORD` path parameter and appends `/{name}` to the
path; a parameter with a default becomes a `KEYWORD_ONLY` query
parameter. Returns the accumulated path and rewritten parameter list. -/
def bpp_step (acc : String × List RouteParam) (p : Param) :
    String × List RouteParam :=
  if p.name = "prompt" then acc
  else
    match p.default with
    | none =>
        (acc.1 ++ "/\x7b" ++ p.name ++ "\x7d",
         acc.2 ++ [⟨p.name, ParamKind.positionalOrKeyword,
           TransportDefault.pathRequired
             ("Path parameter `" ++ p.name ++ "`")⟩])
    | some v =>
        (acc.1,
         acc.2 ++ [⟨p.name, ParamKind.keywordOnly,
           TransportDefault.queryDefault v
             ("Query parameter `" ++ p.name ++ "`")⟩])

/-- The loop of `get_app` over the declared parameters, starting from the
path `"/api/" + step_name` and an empty rewritten parameter list. -/
def build_params_and_path (step_name : String) (sigParams : List Param) :
    String × List RouteParam :=
  sigParams.foldl bpp_step ("/api/" ++ step_name, [])

/-- A mounted route: its path, the rewritten signature the web layer sees
(`endpoint_func.__signature__ = new_signature`), the endpoint handler,
and the HTTP methods. -/
structure Route where
  path : String
  routeParams : List RouteParam
  handler : PyCallable
  methods : List String

/-- One entry of the `step_list` returned by `GET /api/steps`:
`{"name": step_name, "path": path}`. -/
structure StepEntry where
  name : String
  path : String
deriving Repr, DecidableEq

/-- The FastAPI application as `get_app` assembles it: title, the routes
added by `app.add_api_route`, the `step_list` captured by the
`list_steps` closure, and the static-files mount prefix. -/
structure App where
  title : String
  routes : List Route
  step_list : List StepEntry
  static_mount : String

/-- The body of `get_app`'s per-step loop on its successful path: build
the path and rewritten parameters, create the endpoint function over the
registered callable, and package the route (added with
`methods=["GET"]`). The validation `signature.replace` re-runs between
these two phases is modelled by `build_route` below; `mkRoute` is the
value the loop body produces when that validation passes. -/
def mkRoute (step_name : String) (f : StepFunc) : Route :=
  let pr := build_params_and_path step_name f.sigParams
  { path := pr.1
    routeParams := pr.2
    handler := create_endpoint_function (wrapped_call f)
    methods := ["GET"] }

/-- The parameter-order check `inspect.Signature` re-runs when
`signature.replace(parameters=params)` is called at line 72 of api.py:
it rejects any `KEYWORD_ONLY` parameter occurring before a
`POSITIONAL_OR_KEYWORD` parameter. The rewritten parameters all carry a
transport default (`Path(...)` and `Query(...)` objects are not
`Parameter.empty`), so kind order is the only check that can fire. -/
def wrong_parameter_order : List RouteParam → Bool
  | [] => false
  | rp :: rest =>
      (isQueryParam rp && rest.any isPathParam) || wrong_parameter_order rest

/-- The message of the ValueError `inspect.Signature` raises when a
keyword-only parameter precedes a positional-or-keyword one. -/
def wrong_order_msg : String :=
  "wrong parameter order: keyword-only parameter before positional or keyword parameter"

/-- The full per-step route synthesis, including the validation that
`new_signature = signature.replace(parameters=params)` performs at line
72 of api.py before the endpoint function is created: since the loop
assembles `params` in declaration order, a query parameter preceding a
path parameter makes `replace` raise ValueError and no route is
produced. -/
def build_route (step_name : String) (f : StepFunc) : Except Err Route :=
  if wrong_parameter_order (build_params_and_path step_name f.sigParams).2 then
    Except.error (Err.valueError wrong_order_msg)
  else
    Except.ok (mkRoute step_name f)

/-- A `PromptMage` instance as `get_app` reads it: its name and its
insertion-ordered `steps` mapping of step name to registered callable. -/
structure Mage where
  name : String
  steps : List (String × StepFunc)

/-- Embedding of `PromptMageAPI.get_app`: iterate `self.mage.steps.items()` in
insertion order, mount one route per step and append a
`{"name", "path"}` entry to `step_list`, then expose `step_list` through
`GET /api/steps` and mount static files under `/static/`. The loop body
appends one route and one step-list entry per registered step. -/
def add_step_route (app : App) (nf : String × StepFunc) : App :=
  { app with
    routes := app.routes ++ [mkRoute nf.1 nf.2]
    step_list := app.step_list ++
      [⟨nf.1, (build_params_and_path nf.1 nf.2.sigParams).1⟩] }

/-- The application `get_app` returns, assembled by folding the per-step
loop body over the registry from the initial empty application. -/
def get_app (mage : Mage) : App :=
  mage.steps.foldl add_step_route
    { title := "PromptMage API: " ++ mage.name
      routes := []
      step_list := []
      static_mount := "/static/" }

/-- The per-step loop body with the `signature.replace` validation in
place: the ValueError raised at line 72 of api.py aborts the iteration
(and, through the fold below, the whole build). -/
def build_app_step (app : App) (nf : String × StepFunc) : Except Err App :=
  match build_route nf.1 nf.2 with
  | Except.error e => Except.error e
  | Except.ok r =>
      Except.ok
        { app with
          routes := app.routes ++ [r]
          step_list := app.step_list ++ [⟨nf.1, r.path⟩] }

/-- The full embedding of `get_app`, with the exception path of
`signature.replace` included: an uncaught ValueError from any step's
rewritten signature aborts the build, so no application (and no route)
is produced for that registry. `get_app` above is the value of the
successful path (proved below). -/
def get_app_build (mage : Mage) : Except Err App :=
  mage.steps.foldlM build_app_step
    { title := "PromptMage API: " ++ mage.name
      routes := []
      step_list := []
      static_mount := "/static/" }

/-- The transport layer's invocation of a mounted route: FastAPI binds
the request to the rewritten signature's parameter names and calls the
endpoint with keyword arguments only (never positionally), so the
endpoint receives the mapping of argument names to received values. -/
def handle_request (r : Route) (store : PromptStore)
    (received : List (String × Value)) : Except Err Value :=
  r.handler store [] received

/-- The `list_steps` closure: it returns the `step_list` captured when
the application was built; it does not read the current registry (the
second argument models whatever the registry holds at invocation
time). -/
def invoke_list_steps (app : App) (_currentMage : Mage) : List StepEntry :=
  app.step_list

/-- Modelled from the spec: the `PromptMage.step` registration call is
not under `src/`; per the registry contract it appends a new step
registration to the instance's steps mapping. -/
def addStep (m : Mage) (n : String) (f : StepFunc) : Mage :=
  { m with steps := m.steps ++ [(n, f)] }

/-- Explicit state-passing form of `get_app`: the method reads
`self.mage` and returns the application together with the registry as
the method leaves it; the source contains no write to `self.mage` or to
`self.mage.steps`. -/
def get_app_run (m : Mage) : App × Mage :=
  (get_app m, m)

/-- Step listing derived directly from a registry, for comparison with
what a built application reports. -/
def step_listing (m : Mage) : List StepEntry :=
  m.steps.map (fun nf => ⟨nf.1, (build_params_and_path nf.1 nf.2.sigParams).1⟩)

/-- The path-parameter rewriting of a declared parameter (the no-default
branch of the loop). -/
def pathRP (p : Param) : RouteParam :=
  ⟨p.name, ParamKind.positionalOrKeyword,
    TransportDefault.pathRequired ("Path parameter `" ++ p.name ++ "`")⟩

/-- The query-parameter rewriting of a declared parameter with declared
default `v` (the has-default branch of the loop). -/
def queryRP (p : Param) (v : Value) : RouteParam :=
  ⟨p.name, ParamKind.keywordOnly,
    TransportDefault.queryDefault v ("Query parameter `" ++ p.name ++ "`")⟩

/-- Recursive characterization of the path suffix the loop accumulates:
one `/{name}` segment per non-`prompt` parameter without a default, in
declaration order. -/
def path_segments : List Param → String
  | [] => ""
  | p :: rest =>
      if p.name = "prompt" then path_segments rest
      else
        match p.default with
        | none => "/\x7b" ++ p.name ++ "\x7d" ++ path_segments rest
        | some _ => path_segments rest

/-- Recursive characterization of the rewritten parameter list the loop
accumulates. -/
def route_params : List Param → List RouteParam
  | [] => []
  | p :: rest =>
      if p.name = "prompt" then route_params rest
      else
        match p.default with
        | none => pathRP p :: route_params rest
        | some v => queryRP p v :: route_params rest

/-- Whether `needle` occurs as a contiguous run at the head of `hay`. -/
def leadsWith : List Char → List Char → Bool
  | _, [] => true
  | [], _ :: _ => false
  | a :: as, b :: bs => a = b && leadsWith as bs

/-- Whether `needle` occurs as a contiguous run anywhere in `hay`. -/
def occursIn (needle : List Char) : List Char → Bool
  | [] => leadsWith [] needle
  | c :: t => leadsWith (c :: t) needle || occursIn needle t

/-- The path built from a list of path-parameter names: one `/{name}`
segment per name, in order. -/
def segments_of_names : List String → String
  | [] => ""
  | n :: rest => "/\x7b" ++ n ++ "\x7d" ++ segments_of_names rest

/-- Concrete prompt used to exercise the theorems. -/
def prompt₀ : Prompt := ⟨"pid", ["a"], "system text", "user text"⟩

/-- Concrete Prompt Store holding `prompt₀` under id `pid`. -/
def store₀ : PromptStore := [("pid", prompt₀)]

/-- Concrete transport-received arguments. -/
def received₀ : List (String × Value) := [("a", Value.vStr "x")]

/-- Concrete registered step whose original function succeeds. -/
def f_ok : StepFunc :=
  ⟨"pid", [⟨"a", none⟩, ⟨"prompt", some Value.vNone⟩],
    fun _ => Except.ok (Value.vStr "out")⟩

/-- Concrete registered step whose original function raises. -/
def f_err : StepFunc :=
  ⟨"pid", [⟨"a", none⟩, ⟨"prompt", some Value.vNone⟩],
    fun _ => Except.error (Err.userError "boom")⟩

/-- Concrete PromptMage instance with one registered step. -/
def mage₁ : Mage := ⟨"fact-extraction", [("extract", f_ok)]⟩

/-- A second instance with a different name but the same step registry. -/
def mage₂ : Mage := ⟨"renamed", [("extract", f_ok)]⟩

/-- Declared parameters with an optional `a` before a required `b` (in
Python realizable as `def f(a=1, *, b)`). -/
def opt_before_req_params : List Param :=
  [⟨"a", some (Value.vInt 1)⟩, ⟨"b", none⟩]

/-- Concrete step whose original function declares an optional parameter
before a required one. -/
def f_opt : StepFunc :=
  ⟨"pid", opt_before_req_params, fun _ => Except.ok (Value.vStr "out")⟩

/-- Instance registering only `f_opt` under step name `f`. -/
def mage_opt : Mage := ⟨"app", [("f", f_opt)]⟩

/-- C1: for every registered step, the synthesized route's handler, when
invoked with a mapping of argument names to received values, first
resolves the step's prompt_id through the Prompt Store and then calls
the step's original function with the received arguments plus `prompt`
bound to the resolved Prompt, returning the function's result as the
response body. -/
theorem handler_resolves_then_calls_with_prompt
    (n : String) (f : StepFunc) (store : PromptStore)
    (received : List (String × Value)) (p : Prompt)
    (h : get_prompt store f.prompt_id = Except.ok p) :
    handle_request (mkRoute n f) store received =
      f.body ⟨[], received ++ [("prompt", Value.vPrompt p)]⟩ := by
  simp [handle_request, mkRoute, create_endpoint_function, wrapped_call, h]

/-- Witness for C1 at a concrete store, step and request. -/
theorem handler_resolves_then_calls_with_prompt_witness :
    get_prompt store₀ f_ok.prompt_id = Except.ok prompt₀
    ∧ handle_request (mkRoute "extract" f_ok) store₀ received₀ =
        Except.ok (Value.vStr "out") :=
  ⟨rfl,
    (handler_resolves_then_calls_with_prompt "extract" f_ok store₀
      received₀ prompt₀ rfl).trans rfl⟩

/-- C2: every invocation coming from the transport layer reaches the
wrapped original function as a call with no positional arguments at all:
every received argument is passed by name, together with the injected
`prompt` keyword argument. -/
theorem transport_dispatch_is_keyword_only
    (n : String) (f : StepFunc) (store : PromptStore)
    (received : List (String × Value)) (p : Prompt)
    (h : get_prompt store f.prompt_id = Except.ok p) :
    ∃ c : Call,
      handle_request (mkRoute n f) store received = f.body c
      ∧ c.posArgs = []
      ∧ c.kwArgs = received ++ [("prompt", Value.vPrompt p)]
      ∧ ∀ a ∈ received, a ∈ c.kwArgs := by
  refine ⟨⟨[], received ++ [("prompt", Value.vPrompt p)]⟩, ?_, rfl, rfl, ?_⟩
  · simp [handle_request, mkRoute, create_endpoint_function, wrapped_call, h]
  · intro a ha
    exact List.mem_append_left _ ha

/-- Witness for C2 at a concrete store, step and request. -/
theorem transport_dispatch_is_keyword_only_witness :
    ∃ c : Call,
      handle_request (mkRoute "extract" f_ok) store₀ received₀ = f_ok.body c
      ∧ c.posArgs = []
      ∧ c.kwArgs = received₀ ++ [("prompt", Value.vPrompt prompt₀)]
      ∧ ∀ a ∈ received₀, a ∈ c.kwArgs :=
  transport_dispatch_is_keyword_only "extract" f_ok store₀ received₀ prompt₀ rfl

/-- C6: if the step's bound prompt_id has no stored Prompt at invocation
time, the invocation fails with `PromptNotFoundError` (surfaced by the
transport layer as a server error), and the wrapped function is never
invoked: the outcome is the same error for every possible function
body. -/
theorem missing_prompt_fails_without_calling_function
    (n : String) (f : StepFunc) (store : PromptStore)
    (received : List (String × Value))
    (h : store.find? (fun kv => kv.1 = f.prompt_id) = none) :
    handle_request (mkRoute n f) store received =
      Except.error (Err.promptNotFound f.prompt_id)
    ∧ ∀ g : Call → Except Err Value,
        handle_request
          (mkRoute n ⟨f.prompt_id, f.sigParams, g⟩) store received =
          Except.error (Err.promptNotFound f.prompt_id) := by
  constructor
  · simp [handle_request, mkRoute, create_endpoint_function, wrapped_call,
      get_prompt, h]
  · intro g
    simp [handle_request, mkRoute, create_endpoint_function, wrapped_call,
      get_prompt, h]

/-- Witness for C6 at an empty Prompt Store: both a succeeding and a
raising body produce the same `PromptNotFoundError`. -/
theorem missing_prompt_fails_without_calling_function_witness :
    handle_request (mkRoute "extract" f_ok) [] received₀ =
      Except.error (Err.promptNotFound "pid")
    ∧ handle_request (mkRoute "extract" f_err) [] received₀ =
      Except.error (Err.promptNotFound "pid") :=
  have h := missing_prompt_fails_without_calling_function "extract" f_ok
    ([] : PromptStore) received₀ rfl
  ⟨h.1, h.2 f_err.body⟩

/-- C7: when the wrapped function raises, the handler propagates that
exception unchanged: no catching, no replacement, no default value. -/
theorem handler_propagates_function_exception
    (n : String) (f : StepFunc) (store : PromptStore)
    (received : List (String × Value)) (p : Prompt) (e : Err)
    (h1 : get_prompt store f.prompt_id = Except.ok p)
    (h2 : f.body ⟨[], received ++ [("prompt", Value.vPrompt p)]⟩ =
      Except.error e) :
    handle_request (mkRoute n f) store received = Except.error e := by
  simp [handle_request, mkRoute, create_endpoint_function, wrapped_call, h1, h2]

/-- Witness for C7: a concrete raising body's exception comes back
verbatim. -/
theorem handler_propagates_function_exception_witness :
    handle_request (mkRoute "extract" f_err) store₀ received₀ =
      Except.error (Err.userError "boom") :=
  handler_propagates_function_exception "extract" f_err store₀ received₀
    prompt₀ (Err.userError "boom") rfl rfl

/-- The parameter loop, started anywhere, appends exactly the path
segments and rewritten parameters of its input. -/
lemma foldl_bpp_step (ps : List Param) :
    ∀ (s : String) (acc : List RouteParam),
      ps.foldl bpp_step (s, acc) =
        (s ++ path_segments ps, acc ++ route_params ps) := by
  induction ps with
  | nil =>
      intro s acc
      simp [path_segments, route_params]
  | cons p rest ih =>
      intro s acc
      by_cases hp : p.name = "prompt"
      · simp [bpp_step, hp, path_segments, route_params, ih]
      · cases hd : p.default with
        | none =>
            simp [bpp_step, hp, hd, path_segments, route_params, ih,
              String.append_assoc, pathRP]
        | some v =>
            simp [bpp_step, hp, hd, path_segments, route_params, ih, queryRP]

/-- The route path is the `/api/{step}` stem followed by the path
segments; the rewritten parameter list is `route_params`. -/
lemma build_params_and_path_eq (n : String) (ps : List Param) :
    build_params_and_path n ps =
      ("/api/" ++ n ++ path_segments ps, route_params ps) := by
  simp [build_params_and_path, foldl_bpp_step, String.append_assoc]

/-- A rewritten parameter is a query parameter exactly when it is not a
path parameter. -/
lemma isQueryParam_eq_not_isPathParam (rp : RouteParam) :
    isQueryParam rp = !isPathParam rp := by
  cases rp with
  | mk n k d => cases k <;> rfl

/-- Names of the rewritten parameters: the declared names minus
`prompt`, in declaration order. -/
lemma route_params_names (ps : List Param) :
    (route_params ps).map RouteParam.name =
      (ps.filter (fun p => p.name ≠ "prompt")).map Param.name := by
  induction ps with
  | nil => simp [route_params]
  | cons p rest ih =>
      by_cases hp : p.name = "prompt"
      · simp [route_params, hp, ih]
      · cases hd : p.default with
        | none => simp [route_params, hp, hd, pathRP, ih]
        | some v => simp [route_params, hp, hd, queryRP, ih]

/-- Names of the path-classified parameters: the non-`prompt` declared
parameters without a default, in declaration order. -/
lemma route_params_path_names (ps : List Param) :
    ((route_params ps).filter isPathParam).map RouteParam.name =
      ((ps.filter (fun p => p.name ≠ "prompt")).filter
        (fun p => p.default = none)).map Param.name := by
  induction ps with
  | nil => simp [route_params]
  | cons p rest ih =>
      by_cases hp : p.name = "prompt"
      · simp [route_params, hp, ih]
      · cases hd : p.default with
        | none => simp [route_params, hp, hd, pathRP, isPathParam, ih]
        | some v => simp [route_params, hp, hd, queryRP, isPathParam, ih]

/-- Names of the query-classified parameters: the non-`prompt` declared
parameters with a default, in declaration order. -/
lemma route_params_query_names (ps : List Param) :
    ((route_params ps).filter isQueryParam).map RouteParam.name =
      ((ps.filter (fun p => p.name ≠ "prompt")).filter
        (fun p => p.default.isSome)).map Param.name := by
  induction ps with
  | nil => simp [route_params]
  | cons p rest ih =>
      by_cases hp : p.name = "prompt"
      · simp [route_params, hp, ih]
      · cases hd : p.default with
        | none => simp [route_params, hp, hd, pathRP, isQueryParam, ih]
        | some v => simp [route_params, hp, hd, queryRP, isQueryParam, ih]

/-- The accumulated path segments come one per path-classified
parameter, in order. -/
lemma path_segments_eq_segments (ps : List Param) :
    path_segments ps =
      segments_of_names
        (((route_params ps).filter isPathParam).map RouteParam.name) := by
  induction ps with
  | nil => simp [route_params, path_segments, segments_of_names]
  | cons p rest ih =>
      by_cases hp : p.name = "prompt"
      · simp [route_params, path_segments, hp, ih]
      · cases hd : p.default with
        | none =>
            simp [route_params, path_segments, hp, hd, pathRP, isPathParam,
              segments_of_names, ih]
        | some v =>
            simp [route_params, path_segments, hp, hd, queryRP, isPathParam, ih]

/-- C3: the classification performed by the parameter loop yields two
ordered sequences (path parameters and query parameters) that are
disjoint, whose interleaved union is the declared parameter list minus
any parameter literally named `prompt`; parameters without a default are
classified as path parameters and parameters with a default as query
parameters, each sequence preserving declaration order. -/
theorem classification_partitions_parameters (n : String) (ps : List Param) :
    (∀ rp ∈ (build_params_and_path n ps).2.filter isPathParam,
        rp ∉ (build_params_and_path n ps).2.filter isQueryParam)
    ∧ (build_params_and_path n ps).2.map RouteParam.name =
        (ps.filter (fun p => p.name ≠ "prompt")).map Param.name
    ∧ ((build_params_and_path n ps).2.filter isPathParam).map RouteParam.name =
        ((ps.filter (fun p => p.name ≠ "prompt")).filter
          (fun p => p.default = none)).map Param.name
    ∧ ((build_params_and_path n ps).2.filter isQueryParam).map RouteParam.name =
        ((ps.filter (fun p => p.name ≠ "prompt")).filter
          (fun p => p.default.isSome)).map Param.name
    ∧ List.Perm
        ((build_params_and_path n ps).2.filter isPathParam ++
          (build_params_and_path n ps).2.filter isQueryParam)
        (build_params_and_path n ps).2 := by
  have hsnd : (build_params_and_path n ps).2 = route_params ps := by
    rw [build_params_and_path_eq]
  refine ⟨?_, ?_, ?_, ?_, ?_⟩
  · intro rp hmem hmem2
    have h1 : isPathParam rp = true := (List.mem_filter.mp hmem).2
    have h2 : isQueryParam rp = true := (List.mem_filter.mp hmem2).2
    rw [isQueryParam_eq_not_isPathParam, h1] at h2
    simp at h2
  · rw [hsnd, route_params_names]
  · rw [hsnd, route_params_path_names]
  · rw [hsnd, route_params_query_names]
  · have hq : (build_params_and_path n ps).2.filter isQueryParam =
        (build_params_and_path n ps).2.filter (fun rp => !isPathParam rp) := by
      apply List.filter_congr
      intro rp _
      exact isQueryParam_eq_not_isPathParam rp
    rw [hq]
    exact List.filter_append_perm isPathParam (build_params_and_path n ps).2

/-- The route path produced by the parameter loop is `/api/` plus the
step name plus one `/{name}` segment per path-classified parameter, in
declaration order; query parameters never contribute a segment. -/
lemma route_path_formula (n : String) (ps : List Param) :
    (build_params_and_path n ps).1 =
      "/api/" ++ n ++ segments_of_names
        (((build_params_and_path n ps).2.filter isPathParam).map
          RouteParam.name) := by
  have hsnd : (build_params_and_path n ps).2 = route_params ps := by
    rw [build_params_and_path_eq]
  have hfst : (build_params_and_path n ps).1 =
      "/api/" ++ n ++ path_segments ps := by
    rw [build_params_and_path_eq]
  rw [hfst, hsnd, path_segments_eq_segments]

/-- When every step's rewritten parameters pass the `signature.replace`
kind-order validation, the fallible build succeeds from any partial
application and agrees with the successful-path fold. -/
lemma foldlM_build_app_ok (steps : List (String × StepFunc)) :
    ∀ app : App,
      (∀ nf ∈ steps,
        wrong_parameter_order
          (build_params_and_path nf.1 nf.2.sigParams).2 = false) →
      steps.foldlM build_app_step app =
        Except.ok (steps.foldl add_step_route app) := by
  induction steps with
  | nil => intro app _; rfl
  | cons nf rest ih =>
      intro app h
      have hnf := h nf (List.mem_cons_self nf rest)
      have hrest : ∀ x ∈ rest,
          wrong_parameter_order
            (build_params_and_path x.1 x.2.sigParams).2 = false :=
        fun x hx => h x (List.mem_cons_of_mem nf hx)
      have hstep : build_app_step app nf =
          Except.ok (add_step_route app nf) := by
        simp [build_app_step, build_route, hnf, add_step_route, mkRoute]
      simp [List.foldlM_cons, hstep, ih _ hrest]
      rfl

/-- When every registered step's rewritten parameters pass the
validation, `get_app_build` returns exactly the application `get_app`
describes: the total embedding is the successful path of the fallible
one. -/
lemma get_app_build_eq_get_app (m : Mage)
    (h : ∀ nf ∈ m.steps,
      wrong_parameter_order
        (build_params_and_path nf.1 nf.2.sigParams).2 = false) :
    get_app_build m = Except.ok (get_app m) := by
  rw [get_app_build, get_app]
  exact foldlM_build_app_ok m.steps _ h

/-- C4 (code bug): for a function with an optional parameter `a`
declared before a required parameter `b`, the spec promises a
synthesized route whose path `/api/f/{b}` contains `/{b}` and not
`/{a}` — and the parameter loop does compute exactly that path and
classification; but the loop hands the rewritten parameter list to
`signature.replace` in declaration order, with the KEYWORD_ONLY query
parameter `a` before the POSITIONAL_OR_KEYWORD path parameter `b`, so
the validation at line 72 of api.py raises ValueError and `get_app`
mounts no route at all for such a registry. -/
theorem optional_before_required_crashes_build :
    (build_params_and_path "f" opt_before_req_params).1 = "/api/f/\x7bb\x7d"
    ∧ occursIn ("/\x7bb\x7d".data) ("/api/f/\x7bb\x7d".data) = true
    ∧ occursIn ("/\x7ba\x7d".data) ("/api/f/\x7bb\x7d".data) = false
    ∧ wrong_parameter_order
        (build_params_and_path "f" opt_before_req_params).2 = true
    ∧ build_route "f" f_opt = Except.error (Err.valueError wrong_order_msg)
    ∧ get_app_build mage_opt =
        Except.error (Err.valueError wrong_order_msg) := by
  refine ⟨by decide, by decide, by decide, by decide, ?_, ?_⟩
  · rfl
  · rfl

/-- The per-step loop of `get_app`, started from any partial
application, appends one route and one step-list entry per step. -/
lemma foldl_add_step_route (steps : List (String × StepFunc)) :
    ∀ app : App,
      steps.foldl add_step_route app =
        { app with
          routes := app.routes ++ steps.map (fun nf => mkRoute nf.1 nf.2)
          step_list := app.step_list ++ steps.map (fun nf =>
            ⟨nf.1, (build_params_and_path nf.1 nf.2.sigParams).1⟩) } := by
  induction steps with
  | nil => intro app; simp
  | cons nf rest ih =>
      intro app
      rw [List.foldl_cons, ih]
      simp [add_step_route]

/-- The routes mounted by `get_app`: one per registered step, in
registration order. -/
lemma get_app_routes (m : Mage) :
    (get_app m).routes = m.steps.map (fun nf => mkRoute nf.1 nf.2) := by
  rw [get_app, foldl_add_step_route]
  simp

/-- The step list captured by `get_app`: one entry per registered step,
in registration order. -/
lemma get_app_step_list (m : Mage) :
    (get_app m).step_list = step_listing m := by
  rw [get_app, foldl_add_step_route]
  simp [step_listing]

/-- The step listing of a registry has one entry per step. -/
lemma step_listing_length (m : Mage) :
    (step_listing m).length = m.steps.length := by
  simp [step_listing]

/-- C5: the `GET /api/steps` endpoint of a built application returns one
entry per registered step, in registration order, each carrying the
step's name and the synthesized route path of that step. -/
theorem steps_endpoint_lists_all_routes (m : Mage) :
    invoke_list_steps (get_app m) m =
      m.steps.map (fun nf =>
        ⟨nf.1, (build_params_and_path nf.1 nf.2.sigParams).1⟩)
    ∧ (invoke_list_steps (get_app m) m).length = m.steps.length
    ∧ (invoke_list_steps (get_app m) m).map StepEntry.name =
        m.steps.map Prod.fst
    ∧ (invoke_list_steps (get_app m) m).map StepEntry.path =
        (get_app m).routes.map Route.path := by
  refine ⟨?_, ?_, ?_, ?_⟩
  · rw [invoke_list_steps, get_app_step_list, step_listing]
  · rw [invoke_list_steps, get_app_step_list, step_listing_length]
  · rw [invoke_list_steps, get_app_step_list, step_listing]
    simp
  · rw [invoke_list_steps, get_app_step_list, step_listing, get_app_routes]
    simp [mkRoute]

/-- C8: building the API surface twice from an unchanged step registry
yields identical step listings and identical routes (paths, parameter
classifications with their kinds and transport defaults, handlers and
methods). -/
theorem rebuild_from_same_registry_is_stable (m₁ m₂ : Mage)
    (h : m₁.steps = m₂.steps) :
    (get_app m₁).step_list = (get_app m₂).step_list
    ∧ (get_app m₁).routes = (get_app m₂).routes
    ∧ (get_app m₁).routes.map Route.path = (get_app m₂).routes.map Route.path
    ∧ (get_app m₁).routes.map Route.routeParams =
        (get_app m₂).routes.map Route.routeParams := by
  have hl : (get_app m₁).step_list = (get_app m₂).step_list := by
    rw [get_app_step_list, get_app_step_list, step_listing, step_listing, h]
  have hr : (get_app m₁).routes = (get_app m₂).routes := by
    rw [get_app_routes, get_app_routes, h]
  exact ⟨hl, hr, by rw [hr], by rw [hr]⟩

/-- Witness for C8: two builds over the same one-step registry (held by
instances that differ in name only) agree. -/
theorem rebuild_from_same_registry_is_stable_witness :
    (get_app mage₁).step_list = (get_app mage₂).step_list
    ∧ (get_app mage₁).routes = (get_app mage₂).routes
    ∧ (get_app mage₁).routes.map Route.path =
        (get_app mage₂).routes.map Route.path
    ∧ (get_app mage₁).routes.map Route.routeParams =
        (get_app mage₂).routes.map Route.routeParams :=
  rebuild_from_same_registry_is_stable mage₁ mage₂ rfl

/-- C9: the `GET /api/steps` response of a built application is a
snapshot taken at build time: whatever the registry holds at invocation
time (in particular after a step was added), the application built
earlier still reports the listing of the registry it was built from, and
only a new build reports the extended listing. -/
theorem steps_listing_is_build_time_snapshot
    (m m' : Mage) (n : String) (f : StepFunc) :
    invoke_list_steps (get_app m) m' = step_listing m
    ∧ invoke_list_steps (get_app m) (addStep m n f) = step_listing m
    ∧ invoke_list_steps (get_app m) (addStep m n f) ≠
        step_listing (addStep m n f)
    ∧ invoke_list_steps (get_app (addStep m n f)) m' =
        step_listing (addStep m n f) := by
  refine ⟨?_, ?_, ?_, ?_⟩
  · rw [invoke_list_steps, get_app_step_list]
  · rw [invoke_list_steps, get_app_step_list]
  · rw [invoke_list_steps, get_app_step_list]
    intro heq
    have hlen := congrArg List.length heq
    rw [step_listing_length, step_listing_length] at hlen
    simp [addStep] at hlen
  · rw [invoke_list_steps, get_app_step_list]

/-- C10: `get_app` never mutates the step registry: the explicit
state-passing form returns the registry with the same step names, order
and associated functions it had before the build. -/
theorem get_app_does_not_mutate_registry (m : Mage) :
    (get_app_run m).2 = m
    ∧ (get_app_run m).2.steps = m.steps
    ∧ (get_app_run m).2.steps.map Prod.fst = m.steps.map Prod.fst
    ∧ (get_app_run m).2.name = m.name :=
  ⟨rfl, rfl, rfl, rfl⟩

end Flowforge
